import Mathlib

/-!
Verification of the block-lifecycle coordinator (`server/v2/appmanager/service.go`)
of drep-project/cosmos-sdk.

The coordinator's methods take the `AppManager` receiver and mutate its fields
(the optimistic cache slot, and the last committed height through an atomic
pointer).  We embed each method as a pure function from an explicit
`AppManager` record (plus an `Env` record bundling the external collaborators:
the versioned store, the state-transition engine `stf`, and the transaction
pool) to its Go results together with the updated `AppManager` record.
`DeliverBlock` additionally returns the ordered list of external calls it
performed (`Event`s), so that "commits the cached change-sets without invoking
the execution engine" is directly expressible.

External collaborators are opaque to the coordinator; their handles
(state views, block responses, change sets, query values) are modelled as
`Nat`, transaction payloads as `List UInt8`, Go errors as `String`, and
Go's nil-able pointers/slices as `Option` where the code branches on nil.
`fmt.Errorf` wrapping with a stage label is modelled as string concatenation
of the label (with the `%d`/`%s` arguments interpolated) and the inner error.
-/

/-- Opaque transaction payload bytes (Go `[]byte`). -/
abbrev Bytes := List UInt8

/-- State root returned by a commit (Go `Hash`). -/
abbrev Hash := Bytes

/-- A key/value mutation, opaque to the coordinator (Go `store.ChangeSet`). -/
abbrev ChangeSet := Nat

/-- The output of executing a block, opaque to the coordinator
(Go `appmanager.BlockResponse`). -/
abbrev BlockResponse := Nat

/-- Result of simulating a transaction, opaque (Go `appmanager.TxResult`). -/
abbrev TxResult := Nat

/-- A pool transaction: payload bytes plus an identifier (Go `appmanager.Tx`). -/
structure Tx where
  Tx : Bytes
  Identifier : String
deriving DecidableEq, Repr

/-- A block request: a height and an ordered transaction list
(Go `appmanager.BlockRequest`, the two fields the coordinator reads). -/
structure BlockRequest where
  Height : Nat
  Txs : List Bytes
deriving DecidableEq, Repr

/-- One external call performed by `DeliverBlock`, in order. -/
inductive Event where
  /-- `db.NewStateAt(height)` -/
  | newStateAt (height : Nat)
  /-- `stf.DeliverBlock(block, state)` — the execution engine's path -/
  | stfDeliverBlock (block : BlockRequest) (state : Nat)
  /-- `newState.ChangeSets()` -/
  | changeSets (state : Nat)
  /-- `db.CommitState(cs)` -/
  | commitState (cs : List ChangeSet)
deriving DecidableEq, Repr

/-- The external collaborators, as the coordinator sees them: the versioned
store gateway, the state-transition engine, and the transaction pool.  Each is
a pure function from the arguments the coordinator passes to the results the
coordinator receives.  `stfSimulate` returns only a `TxResult` and no error,
exactly as at the call site in `Simulate`. -/
structure Env where
  /-- `db.NewStateAt(height)`: a writable state view handle, or an error. -/
  NewStateAt : Nat → Except String Nat
  /-- `db.CommitState(changeSets)`: the resulting state root, or an error. -/
  CommitState : List ChangeSet → Except String Hash
  /-- `db.ReadonlyStateAt(height)`: a read-only state view handle, or an error. -/
  ReadonlyStateAt : Nat → Except String Nat
  /-- `stf.DeliverBlock(block, state)`: a (nil-able) block response and a new
  state handle, or an error. -/
  stfDeliverBlock : BlockRequest → Nat → Except String (Option BlockResponse × Nat)
  /-- `newState.ChangeSets()` on the state handle returned by the engine. -/
  ChangeSets : Nat → Except String (List ChangeSet)
  /-- `stf.Simulate(state, gasLimit, tx)`: returns a result, no error. -/
  stfSimulate : Nat → Nat → Bytes → TxResult
  /-- `stf.Query(state, gasLimit, request)`. -/
  stfQuery : Nat → Nat → Nat → Except String Nat
  /-- `txpool.GetTxs(totalSize)`. -/
  GetTxs : Nat → Except String (List Tx)
  /-- `a.PrepareBlock(txs)`: a (nil-able) block response and (nil-able)
  change sets, or an error. -/
  PrepareBlock : List Tx → Except String (Option BlockResponse × Option (List ChangeSet))

/-- The coordinator state (`AppManager` struct): fixed gas-limit configs, the
last committed height (`lastBlockHeight`, an atomic counter), and the
single-slot optimistic cache (`cachedState`, `cachedTx`,
`cachedBlockResponse`; each nil-able, hence `Option`). -/
structure AppManager where
  checkTxGasLimit : Nat
  queryGasLimit : Nat
  simulationGasLimit : Nat
  lastBlockHeight : Nat
  cachedState : Option (List ChangeSet)
  cachedTx : Option (List Tx)
  cachedBlockResponse : Option BlockResponse
deriving DecidableEq, Repr

/-- The builder: the registered module-name → genesis-initializer mapping.
Go's `map[string]func` is modelled as an association list in some iteration
order (Go map iteration order is unspecified); an initializer returns
`none` on success and `some err` on failure. -/
structure AppManagerBuilder where
  InitGenesis : List (String × (Bytes → Option String))

/-- Looks a module name up in a module → payload association list,
returning Go's zero value `nil`/empty bytes when absent
(`genesisMap[module]` on a `map[string][]byte`). -/
def lookupGenesis (genesisMap : List (String × Bytes)) (module : String) : Bytes :=
  match genesisMap.find? (fun p => p.1 = module) with
  | some p => p.2
  | none => []

/-- The loop inside the `genesis` closure of `AppManagerBuilder.Build`:
for each registered `(module, genesisFunc)`, call
`genesisFunc(genesisMap[module])`; on the first failure stop and return
`fmt.Errorf("failed to init genesis on module: %s", module)` (the inner
error is discarded).  Also returns the ordered list of
(module, payload) invocations actually performed. -/
def genesisLoop (genesisMap : List (String × Bytes)) :
    List (String × (Bytes → Option String)) → Option String × List (String × Bytes)
  | [] => (none, [])
  | (module, genesisFunc) :: rest =>
    match genesisFunc (lookupGenesis genesisMap module) with
    | some _ =>
      (some ("failed to init genesis on module: " ++ module),
        [(module, lookupGenesis genesisMap module)])
    | none =>
      ((genesisLoop genesisMap rest).1,
        (module, lookupGenesis genesisMap module) :: (genesisLoop genesisMap rest).2)

/-- `AppManagerBuilder.Build`'s `genesis` closure: it allocates an empty
`genesisMap` (the incoming genesis bytes are ignored by the source) and runs
the loop over the registered initializers. -/
def Build (a : AppManagerBuilder) (_genesisBytes : Bytes) : Option String × List (String × Bytes) :=
  genesisLoop [] a.InitGenesis

/-- The `diff` computation of `DeliverBlock`: `diff` ends up `true` exactly
when some cached transaction differs from some transaction of the block
request (the nested loops set `diff := true` at the first mismatching pair
of the inner loop and never reset it). -/
def diffTxs (cachedTx : List Tx) (blockTxs : List Bytes) : Bool :=
  cachedTx.any (fun ctx => blockTxs.any (fun tx => !(ctx.Tx = tx : Bool)))

/-- The non-cached tail of `DeliverBlock` (lines 135-152): run the engine,
derive the change sets, commit them, and only then store the block height. -/
def deliverExec (env : Env) (a : AppManager) (block : BlockRequest) (currentState : Nat)
    (pre : List Event) :
    Except String (Option BlockResponse × Hash) × AppManager × List Event :=
  match env.stfDeliverBlock block currentState with
  | .error err =>
    (.error ("block delivery failed: " ++ err), a, pre ++ [.stfDeliverBlock block currentState])
  | .ok (blockResponse, newState) =>
    match env.ChangeSets newState with
    | .error err =>
      (.error ("change set: " ++ err), a,
        pre ++ [.stfDeliverBlock block currentState, .changeSets newState])
    | .ok newStateChanges =>
      match env.CommitState newStateChanges with
      | .error err =>
        (.error ("commit failed: " ++ err), a,
          pre ++ [.stfDeliverBlock block currentState, .changeSets newState,
            .commitState newStateChanges])
      | .ok stateRoot =>
        (.ok (blockResponse, stateRoot), { a with lastBlockHeight := block.Height },
          pre ++ [.stfDeliverBlock block currentState, .changeSets newState,
            .commitState newStateChanges])

/-- `AppManager.DeliverBlock`: acquire a state view at the block's height;
if both cache fields are non-nil and `diff` stays false, commit the cached
change sets and return the cached block response (without touching
`lastBlockHeight` or the cache fields); otherwise run the execution path. -/
def DeliverBlock (env : Env) (a : AppManager) (block : BlockRequest) :
    Except String (Option BlockResponse × Hash) × AppManager × List Event :=
  match env.NewStateAt block.Height with
  | .error err =>
    (.error ("unable to create new state for height " ++ toString block.Height ++ ": " ++ err),
      a, [.newStateAt block.Height])
  | .ok currentState =>
    match a.cachedState, a.cachedTx with
    | some cachedState, some cachedTx =>
      if diffTxs cachedTx block.Txs then
        deliverExec env a block currentState [.newStateAt block.Height]
      else
        match env.CommitState cachedState with
        | .error err =>
          (.error ("commit failed: " ++ err), a,
            [.newStateAt block.Height, .commitState cachedState])
        | .ok stateRoot =>
          (.ok (a.cachedBlockResponse, stateRoot), a,
            [.newStateAt block.Height, .commitState cachedState])
    | _, _ => deliverExec env a block currentState [.newStateAt block.Height]

/-- `AppManager.BuildBlock`: replace the incoming `txs` by the pool's output,
run them through `PrepareBlock`, cache the triple when both the change sets
and the block response are non-nil, and return the pool's transaction list. -/
def BuildBlock (env : Env) (a : AppManager) (txs : List Tx) (totalSize : Nat) :
    Except String (List Tx) × AppManager :=
  match env.GetTxs totalSize with
  | .error err => (.error err, a)
  | .ok txs =>
    match env.PrepareBlock txs with
    | .error err => (.error err, a)
    | .ok (bsr, changeSets) =>
      if changeSets.isSome && bsr.isSome then
        (.ok txs,
          { a with cachedState := changeSets, cachedBlockResponse := bsr, cachedTx := some txs })
      else
        (.ok txs, a)

/-- `AppManager.getLatestState`: a read-only view at `lastBlockHeight`. -/
def getLatestState (env : Env) (a : AppManager) : Except String Nat :=
  match env.ReadonlyStateAt a.lastBlockHeight with
  | .error err => .error err
  | .ok lastBlockState => .ok lastBlockState

/-- `AppManager.Simulate`: read-only view at the last committed height, then
`stf.Simulate` with the fixed `simulationGasLimit`; the engine call returns
no error, so the only failure is the view acquisition. -/
def Simulate (env : Env) (a : AppManager) (tx : Bytes) :
    Except String TxResult × AppManager :=
  match getLatestState env a with
  | .error err => (.error err, a)
  | .ok state => (.ok (env.stfSimulate state a.simulationGasLimit tx), a)

/-- `AppManager.Query`: read-only view at the last committed height, then
`stf.Query` with the fixed `queryGasLimit`. -/
def Query (env : Env) (a : AppManager) (request : Nat) :
    Except String Nat × AppManager :=
  match getLatestState env a with
  | .error err => (.error err, a)
  | .ok queryState => (env.stfQuery queryState a.queryGasLimit request, a)

/-! ### Concrete inputs used to evaluate the coordinator -/

/-- A one-byte transaction `0x00`. -/
def txA : Tx := ⟨[0], "a"⟩

/-- A one-byte transaction `0x01`, distinct from `txA`. -/
def txB : Tx := ⟨[1], "b"⟩

/-- A concrete environment: every store/engine/pool call succeeds;
`CommitState` returns a root that identifies the committed change sets,
and the engine's execution path returns block response `99` with derived
change sets `[55]`, distinguishable from any cached artifacts. -/
def env0 : Env where
  NewStateAt := fun _ => .ok 0
  CommitState := fun cs => .ok (cs.map Nat.toUInt8)
  ReadonlyStateAt := fun _ => .ok 0
  stfDeliverBlock := fun _ _ => .ok (some 99, 1)
  ChangeSets := fun _ => .ok [55]
  stfSimulate := fun state gasLimit tx => state + gasLimit + tx.length
  stfQuery := fun _ _ request => .ok request
  GetTxs := fun _ => .ok [txA]
  PrepareBlock := fun _ => .ok (some 7, some [3])

/-- Coordinator at height 4 whose cache slot holds candidate list
`[txA, txB]`, change sets `[7]` and block response `1`. -/
def am1 : AppManager := ⟨0, 0, 0, 4, some [7], some [txA, txB], some 1⟩

/-- Block request at height 5 whose transaction list is byte-exactly the
cached candidate list of `am1`. -/
def block1 : BlockRequest := ⟨5, [[0], [1]]⟩

/-- Coordinator at height 4 whose cache slot holds candidate list
`[txA, txA]`, change sets `[7]` and block response `1`. -/
def am2 : AppManager := ⟨0, 0, 0, 4, some [7], some [txA, txA], some 1⟩

/-- Coordinator at height 4 whose cache slot holds candidate list
`[txA]`, change sets `[7]` and block response `1`. -/
def am3 : AppManager := ⟨0, 0, 0, 4, some [7], some [txA], some 1⟩

/-- Block request at height 5 with transaction list `[txA]`. -/
def block3 : BlockRequest := ⟨5, [[0]]⟩

/-- C1: the claim states that a DeliverBlock whose transaction list is
byte-exactly equal, as a full ordered list, to the cached candidate list
commits the cached change-sets and returns the cached response without
invoking the execution engine.  The code compares every cached transaction
against every block transaction, so the equal two-element list `[txA, txB]`
(with `txA ≠ txB`) is flagged as different: the engine executes
(`Event.stfDeliverBlock` occurs), the re-derived change sets `[55]` are
committed instead of the cached `[7]`, and the engine's response `99` is
returned instead of the cached `1`. -/
theorem DeliverBlock_equal_list_not_reused :
    am1.cachedTx = some [txA, txB] ∧
    block1.Txs = List.map Tx.Tx [txA, txB] ∧
    DeliverBlock env0 am1 block1 =
      (.ok (some 99, [55]), { am1 with lastBlockHeight := 5 },
        [.newStateAt 5, .stfDeliverBlock block1 0, .changeSets 1, .commitState [55]]) := by
  refine ⟨rfl, rfl, rfl⟩

/-- C2: the claim states that any difference between the requested list and
the cached candidate list (extra, missing, or reordered transaction)
prevents reuse and forces full re-execution of the requested list.  With
cached candidate list `[txA, txA]` and requested list `[txA]` (a missing
transaction), every cached/requested pair is byte-equal, so the code takes
the reuse path: it commits the cached change sets `[7]` and returns the
cached response `1`, and the execution engine is never invoked. -/
theorem DeliverBlock_different_list_reuses_cache :
    am2.cachedTx = some [txA, txA] ∧
    block3.Txs ≠ List.map Tx.Tx [txA, txA] ∧
    DeliverBlock env0 am2 block3 =
      (.ok (some 1, [7]), am2, [.newStateAt 5, .commitState [7]]) := by
  refine ⟨rfl, by decide, rfl⟩

/-- C3: the claim states that after every successful DeliverBlock the
last committed height equals the request's height, on the cache-reuse path
as well.  On the cache-reuse path the code returns before
`lastBlockHeight.Store`: with cached list `[txA]` and the byte-identical
request at height 5, the call succeeds but the height stays 4. -/
theorem DeliverBlock_cached_success_skips_height_update :
    (DeliverBlock env0 am3 block3).1 = .ok (some 1, [7]) ∧
    block3.Height = 5 ∧
    (DeliverBlock env0 am3 block3).2.1.lastBlockHeight = 4 := by
  refine ⟨rfl, rfl, rfl⟩

/-- C5 counterexample: the claim states that after every DeliverBlock call
the cache slot is cleared or invalidated, so reuse requires an intervening
BuildBlock.  The code never clears the slot: after a successful cache-reuse
delivery the coordinator state is unchanged, and a second DeliverBlock with
no BuildBlock in between takes the reuse path again (commits the cached
`[7]` and returns the cached response without invoking the engine). -/
theorem DeliverBlock_leaves_cache_reusable :
    (DeliverBlock env0 am3 block3).2.1 = am3 ∧
    DeliverBlock env0 (DeliverBlock env0 am3 block3).2.1 block3 =
      (.ok (some 1, [7]), am3, [.newStateAt 5, .commitState [7]]) := by
  refine ⟨rfl, rfl⟩

/-- C5 (amended): DeliverBlock never modifies the Optimistic Cache Slot —
after any DeliverBlock call the cached change sets, cached transactions and
cached block response are exactly what they were before, so a later
DeliverBlock can take the cache-reuse path without any intervening
BuildBlock. -/
theorem DeliverBlock_preserves_cache (env : Env) (a : AppManager) (block : BlockRequest) :
    (DeliverBlock env a block).2.1.cachedState = a.cachedState ∧
    (DeliverBlock env a block).2.1.cachedTx = a.cachedTx ∧
    (DeliverBlock env a block).2.1.cachedBlockResponse = a.cachedBlockResponse := by
  unfold DeliverBlock deliverExec
  repeat' split
  all_goals simp

/-- C9: Query and Simulate never modify the coordinator state (the height
and the whole cache slot are returned unchanged), and BuildBlock — the only
other operation besides DeliverBlock — leaves the last committed height
unchanged, so the height is written only by DeliverBlock. -/
theorem Query_Simulate_no_state_write (env : Env) (a : AppManager) (request : Nat)
    (tx : Bytes) (txs : List Tx) (totalSize : Nat) :
    (Query env a request).2 = a ∧
    (Simulate env a tx).2 = a ∧
    (BuildBlock env a txs totalSize).2.lastBlockHeight = a.lastBlockHeight := by
  unfold Query Simulate BuildBlock getLatestState
  repeat' split
  all_goals simp

/-- C10: BuildBlock's transaction-list argument is immediately shadowed by
the transaction source's output, so two calls on the same coordinator state
and budget that differ only in that argument return the same transaction
list and error and produce the same coordinator state. -/
theorem BuildBlock_ignores_input_txs (env : Env) (a : AppManager)
    (txs1 txs2 : List Tx) (totalSize : Nat) :
    BuildBlock env a txs1 totalSize = BuildBlock env a txs2 totalSize := rfl

/-- On the execution path of DeliverBlock, any error leaves the coordinator
state unchanged and carries one of the three stage labels. -/
theorem deliverExec_error (env : Env) (a : AppManager) (block : BlockRequest)
    (currentState : Nat) (pre : List Event) (e : String) :
    (deliverExec env a block currentState pre).1 = .error e →
    (deliverExec env a block currentState pre).2.1 = a ∧
    (∃ inner, e = "block delivery failed: " ++ inner ∨ e = "change set: " ++ inner ∨
      e = "commit failed: " ++ inner) := by
  unfold deliverExec
  split
  · intro h
    cases h
    exact ⟨rfl, _, Or.inl rfl⟩
  · split
    · intro h
      cases h
      exact ⟨rfl, _, Or.inr (Or.inl rfl)⟩
    · split
      · intro h
        cases h
        exact ⟨rfl, _, Or.inr (Or.inr rfl)⟩
      · intro h
        exact absurd h (by simp)

/-- C4: every failed DeliverBlock call returns an error carrying a stage
label (state-view anchoring, execution, change-set derivation, or commit),
and the last committed height is exactly what it was before the call. -/
theorem DeliverBlock_error_keeps_height (env : Env) (a : AppManager) (block : BlockRequest)
    (e : String) (h : (DeliverBlock env a block).1 = .error e) :
    (DeliverBlock env a block).2.1.lastBlockHeight = a.lastBlockHeight ∧
    (∃ inner,
      e = "unable to create new state for height " ++ toString block.Height ++ ": " ++ inner ∨
      e = "block delivery failed: " ++ inner ∨
      e = "change set: " ++ inner ∨
      e = "commit failed: " ++ inner) := by
  revert h
  unfold DeliverBlock
  split
  · intro h
    cases h
    exact ⟨rfl, _, Or.inl rfl⟩
  · split
    · split
      · intro h
        obtain ⟨hs, inner, hi⟩ := deliverExec_error env a block _ _ e h
        rw [hs]
        exact ⟨rfl, inner, Or.inr hi⟩
      · split
        · intro h
          cases h
          exact ⟨rfl, _, Or.inr (Or.inr (Or.inr rfl))⟩
        · intro h
          exact absurd h (by simp)
    · intro h
      obtain ⟨hs, inner, hi⟩ := deliverExec_error env a block _ _ e h
      rw [hs]
      exact ⟨rfl, inner, Or.inr hi⟩

/-- A store gateway that cannot anchor a state view at any height. -/
def envAnchorFail : Env := { env0 with NewStateAt := fun _ => .error "boom" }

/-- C4 witness: at the concrete anchoring failure, the error carries the
anchoring stage label and the height is unchanged. -/
theorem DeliverBlock_error_keeps_height_witness :
    (DeliverBlock envAnchorFail am3 block3).2.1.lastBlockHeight = am3.lastBlockHeight ∧
    (∃ inner,
      "unable to create new state for height 5: boom" =
        "unable to create new state for height " ++ toString block3.Height ++ ": " ++ inner ∨
      "unable to create new state for height 5: boom" = "block delivery failed: " ++ inner ∨
      "unable to create new state for height 5: boom" = "change set: " ++ inner ∨
      "unable to create new state for height 5: boom" = "commit failed: " ++ inner) :=
  DeliverBlock_error_keeps_height envAnchorFail am3 block3
    "unable to create new state for height 5: boom" rfl

/-- The full invocation list genesis would perform if nothing failed:
every registered module once, in order, with its payload from the mapping
(empty bytes when the mapping supplies none). -/
def genesisCalls (genesisMap : List (String × Bytes))
    (inits : List (String × (Bytes → Option String))) : List (String × Bytes) :=
  inits.map (fun p => (p.1, lookupGenesis genesisMap p.1))

/-- C6: the genesis loop invokes every registered initializer exactly once,
in registration order, passing each one that module's payload from the
mapping (or empty bytes if none was supplied); when some initializer fails,
the loop stops at the first failing one — every earlier initializer
succeeded and was invoked, no later one is invoked — and the returned error
names the failing module. -/
theorem genesisLoop_correct (gm : List (String × Bytes))
    (inits : List (String × (Bytes → Option String))) :
    ((genesisLoop gm inits).1 = none →
      (genesisLoop gm inits).2 = genesisCalls gm inits) ∧
    (∀ e, (genesisLoop gm inits).1 = some e →
      ∃ pre mod f post,
        inits = pre ++ (mod, f) :: post ∧
        (∀ p ∈ pre, p.2 (lookupGenesis gm p.1) = none) ∧
        f (lookupGenesis gm mod) ≠ none ∧
        e = "failed to init genesis on module: " ++ mod ∧
        (genesisLoop gm inits).2 = genesisCalls gm (pre ++ [(mod, f)])) := by
  induction inits with
  | nil =>
    constructor
    · intro _
      rfl
    · intro e h
      exact absurd h (by simp [genesisLoop])
  | cons head tl ih =>
    obtain ⟨module, genesisFunc⟩ := head
    constructor
    · intro h
      unfold genesisLoop at h ⊢
      cases hf : genesisFunc (lookupGenesis gm module) with
      | some err =>
        rw [hf] at h
        exact absurd h (by simp)
      | none =>
        rw [hf] at h
        replace h : (genesisLoop gm tl).1 = none := h
        show (module, lookupGenesis gm module) :: (genesisLoop gm tl).2 =
          genesisCalls gm ((module, genesisFunc) :: tl)
        rw [ih.1 h]
        rfl
    · intro e h
      unfold genesisLoop at h ⊢
      cases hf : genesisFunc (lookupGenesis gm module) with
      | some err =>
        rw [hf] at h
        replace h : some ("failed to init genesis on module: " ++ module) = some e := h
        have he := Option.some.inj h
        subst he
        refine ⟨[], module, genesisFunc, tl, rfl, by simp, by simp [hf], rfl, rfl⟩
      | none =>
        rw [hf] at h
        replace h : (genesisLoop gm tl).1 = some e := h
        obtain ⟨pre, mod, f, post, heq, hpre, hfail, he, hcalls⟩ := ih.2 e h
        refine ⟨(module, genesisFunc) :: pre, mod, f, post, by rw [heq]; rfl, ?_, hfail, he, ?_⟩
        · intro p hp
          rcases List.mem_cons.mp hp with hp | hp
          · rw [hp]
            exact hf
          · exact hpre p hp
        · show (module, lookupGenesis gm module) :: (genesisLoop gm tl).2 =
            genesisCalls gm (((module, genesisFunc) :: pre) ++ [(mod, f)])
          rw [hcalls]
          rfl

/-- Two registered initializers that both succeed. -/
def initsOk : List (String × (Bytes → Option String)) :=
  [("bank", fun _ => none), ("staking", fun _ => none)]

/-- C6 witness: with both registered initializers succeeding on the empty
mapping, the loop invoked exactly the two registered modules, in order,
each with the empty payload. -/
theorem genesisLoop_correct_witness :
    (genesisLoop [] initsOk).2 = genesisCalls [] initsOk :=
  (genesisLoop_correct [] initsOk).1 rfl

/-- C7: if the transaction source or the speculative execution fails,
BuildBlock returns that error unwrapped and leaves the coordinator state —
in particular the cache slot — entirely untouched; if both succeed, the
transaction source's list is returned regardless of caching, and when the
produced block response and change sets are non-empty the
(transactions, change-sets, response) triple is stored in the cache slot,
overwriting any prior contents. -/
theorem BuildBlock_spec (env : Env) (a : AppManager) (txs0 : List Tx) (totalSize : Nat) :
    (∀ e, env.GetTxs totalSize = .error e →
      BuildBlock env a txs0 totalSize = (.error e, a)) ∧
    (∀ txs, env.GetTxs totalSize = .ok txs →
      (∀ e, env.PrepareBlock txs = .error e →
        BuildBlock env a txs0 totalSize = (.error e, a)) ∧
      (∀ bsr changeSets, env.PrepareBlock txs = .ok (bsr, changeSets) →
        (BuildBlock env a txs0 totalSize).1 = .ok txs ∧
        (∀ r cs, bsr = some r → changeSets = some cs → cs ≠ [] →
          (BuildBlock env a txs0 totalSize).2 =
            { a with cachedState := changeSets, cachedTx := some txs,
                     cachedBlockResponse := bsr }))) := by
  refine ⟨?_, ?_⟩
  · intro e h
    unfold BuildBlock
    rw [h]
  · intro txs hget
    refine ⟨?_, ?_⟩
    · intro e h
      unfold BuildBlock
      simp only [hget, h]
    · intro bsr changeSets hprep
      unfold BuildBlock
      simp only [hget, hprep]
      refine ⟨?_, ?_⟩
      · split <;> rfl
      · intro r cs hr hcs _
        subst hr
        subst hcs
        rfl

/-- A fresh coordinator at height 0 with an empty cache slot. -/
def amEmpty : AppManager := ⟨0, 0, 0, 0, none, none, none⟩

/-- C7 witness: with the pool returning `[txA]` and speculative execution
producing response `7` and change sets `[3]`, BuildBlock returns `[txA]`
and fills the cache slot with the triple. -/
theorem BuildBlock_spec_witness :
    (BuildBlock env0 amEmpty [] 10).1 = .ok [txA] ∧
    (BuildBlock env0 amEmpty [] 10).2 =
      { amEmpty with cachedState := some [3], cachedTx := some [txA],
                     cachedBlockResponse := some 7 } := by
  have h := ((BuildBlock_spec env0 amEmpty [] 10).2 [txA] rfl).2 (some 7) (some [3]) rfl
  exact ⟨h.1, h.2 7 [3] rfl rfl (by simp)⟩

/-- C8: Simulate fails exactly when acquiring the read-only state view at
the last committed height fails (the engine's simulate operation, as
invoked by the code, returns no error, so there is no engine failure to
propagate); on success it returns the engine's simulation result invoked
with the fixed simulation gas budget, and the coordinator state is
unchanged. -/
theorem Simulate_spec (env : Env) (a : AppManager) (tx : Bytes) :
    (∀ e, (Simulate env a tx).1 = .error e ↔
      env.ReadonlyStateAt a.lastBlockHeight = .error e) ∧
    (∀ state, env.ReadonlyStateAt a.lastBlockHeight = .ok state →
      Simulate env a tx = (.ok (env.stfSimulate state a.simulationGasLimit tx), a)) := by
  refine ⟨?_, ?_⟩
  · intro e
    unfold Simulate getLatestState
    cases hr : env.ReadonlyStateAt a.lastBlockHeight with
    | error err => simp
    | ok state => simp
  · intro state h
    unfold Simulate getLatestState
    rw [h]

/-- C8 witness: with the store view succeeding (handle 0) and gas budget 0,
simulating the one-byte transaction returns the engine's result `1`. -/
theorem Simulate_spec_witness :
    Simulate env0 am3 [0] = (.ok 1, am3) :=
  (Simulate_spec env0 am3 [0]).2 0 rfl
